import Mathlib

/-!
Verification of the ollama-proxy request interception and decision pipeline.

This file gives a shallow embedding of the Go program (main.go, types.go):
pure helpers are translated directly, and the effects of outbound HTTP calls
(validation service, metrics service, inference backend, startup probes) are
represented by explicit oracle values describing the outcome the external
world would produce.  Go machine integers that hold token counts and
durations are modelled as Int (no arithmetic is performed on them by the
program, so no overflow reasoning is needed).  JSON (de)serialization via
encoding/json.Unmarshal is abstracted as a record of parsing functions
returning Option, one per target struct type: a nil Go error corresponds to
some, a non-nil error to none.
-/

/-! ### Go string helpers -/

/-- Embeds Go strings.HasSuffix s suffix (used by the path dispatch and by
singleJoiningSlash): true iff suffix is a suffix of s.  Stated on the
character list underlying the string. -/
def goEndsWith (s sfx : String) : Bool := decide (sfx.data <:+ s.data)

/-- Embeds Go strings.HasPrefix b p (used by singleJoiningSlash): true iff
p is a prefix of b. -/
def goStartsWith (s p : String) : Bool := decide (p.data <+: s.data)

/-- Embeds the Go byte-slice expression b[1:].  It is only applied where the
first byte is the ASCII slash, so dropping one byte is dropping one
character. -/
def dropFirstByte (s : String) : String := String.mk s.data.tail

/-! ### Data model (types.go) -/

/-- RequestDetails from types.go: information about the incoming request,
serialized and sent to the external validation server. -/
structure RequestDetails where
  apiKey : String
  ipAddress : String
  userAgent : String
  headers : List (String × String)
  model : String
  inputTokenLength : Int
  endpoint : String
deriving Repr, DecidableEq

/-- ValidationResponse from types.go: the verdict of the external
validation server. -/
structure ValidationResponse where
  valid : Bool
  rateLimited : Bool
deriving Repr, DecidableEq

/-- MetricsData from types.go: the usage record sent to the metrics
server. -/
structure MetricsData where
  apiKey : String
  model : String
  inputTokenLength : Int
  outputTokenLength : Int
  requestDurationMs : Int
  endpoint : String
deriving Repr, DecidableEq

/-- ChatMessage from types.go (the tool_calls field, whose payload is an
untyped interface value never read by the pipeline, is omitted). -/
structure ChatMessage where
  role : String
  content : String
  images : List String
deriving Repr, DecidableEq

/-- ChatRequest from types.go.  Only the model field is ever read by the
pipeline; the untyped format/options interface fields are omitted. -/
structure ChatRequest where
  model : String
  messages : List ChatMessage
  stream : Bool
deriving Repr, DecidableEq

/-- GenerateRequest from types.go (untyped format/options omitted). -/
structure GenerateRequest where
  model : String
  prompt : String
  stream : Bool
  images : List String
deriving Repr, DecidableEq

/-- EmbedRequest from types.go (untyped input/options omitted). -/
structure EmbedRequest where
  model : String
deriving Repr, DecidableEq

/-- CreateRequest from types.go.  Only the model field is ever read by the
pipeline; the remaining fields (source model name, files, adapters,
license, parameters, messages, ...) are omitted. -/
structure CreateRequest where
  model : String
  template : String
  system : String
  quantize : String
  stream : Bool
deriving Repr, DecidableEq

/-- ChatResponse from types.go.  Durations are Go int64, counts Go int;
both are modelled as Int. -/
structure ChatResponse where
  model : String
  createdAt : String
  message : ChatMessage
  done : Bool
  doneReason : String
  totalDuration : Int
  loadDuration : Int
  promptEvalCount : Int
  evalCount : Int
  evalDuration : Int
deriving Repr, DecidableEq

/-- GenerateResponse from types.go. -/
structure GenerateResponse where
  model : String
  createdAt : String
  response : String
  done : Bool
  doneReason : String
  totalDuration : Int
  loadDuration : Int
  promptEvalCount : Int
  evalCount : Int
  evalDuration : Int
deriving Repr, DecidableEq

/-- EmbedResponse from types.go.  The embeddings field ([][]float32) is
floating-point data never read by the pipeline and is omitted. -/
structure EmbedResponse where
  model : String
  totalDuration : Int
  loadDuration : Int
  promptEvalCount : Int
deriving Repr, DecidableEq

/-- Abstraction of encoding/json.Unmarshal at each target type used by the
pipeline.  json.Unmarshal(body, target) returning a nil error corresponds
to some, a non-nil error to none.  Request and response bodies are byte
slices in Go, modelled as strings. -/
structure JsonCodec where
  chatReq : String → Option ChatRequest
  generateReq : String → Option GenerateRequest
  embedReq : String → Option EmbedRequest
  createReq : String → Option CreateRequest
  chatResp : String → Option ChatResponse
  generateResp : String → Option GenerateResponse
  embedResp : String → Option EmbedResponse

/-! ### Model and token extraction (main.go getModelFromRequest,
getTokenCountsFromResponse) -/

/-- getModelFromRequest from main.go: dispatch on the URL path suffix and
parse the corresponding request shape; any unmatched path or parse failure
falls through to the empty string. -/
def getModelFromRequest (J : JsonCodec) (path : String) (body : String) : String :=
  if goEndsWith path "/api/chat" then
    match J.chatReq body with
    | some chatReq => chatReq.model
    | none => ""
  else if goEndsWith path "/api/generate" then
    match J.generateReq body with
    | some genReq => genReq.model
    | none => ""
  else if goEndsWith path "/api/embed" then
    match J.embedReq body with
    | some embedReq => embedReq.model
    | none => ""
  else if goEndsWith path "/api/create" then
    match J.createReq body with
    | some createReq => createReq.model
    | none => ""
  else ""

/-- getTokenCountsFromResponse from main.go: dispatch on the URL path
suffix and parse the corresponding response shape; inputTokens and
outputTokens start at the Go zero value 0 and keep it on any unmatched
path or parse failure.  Embed responses have no output-token concept. -/
def getTokenCountsFromResponse (J : JsonCodec) (path : String)
    (responseBody : String) : Int × Int :=
  if goEndsWith path "/api/chat" then
    match J.chatResp responseBody with
    | some chatResp => (chatResp.promptEvalCount, chatResp.evalCount)
    | none => (0, 0)
  else if goEndsWith path "/api/generate" then
    match J.generateResp responseBody with
    | some genResp => (genResp.promptEvalCount, genResp.evalCount)
    | none => (0, 0)
  else if goEndsWith path "/api/embed" then
    match J.embedResp responseBody with
    | some embedResp => (embedResp.promptEvalCount, 0)
    | none => (0, 0)
  else (0, 0)

/-! ### Specification-side dispatch (for the refinement claims about model
and token extraction) -/

/-- The four inference operations the spec says the path dispatch
recognizes. -/
inductive ApiEndpointKind where
  | chat
  | generate
  | embed
  | create
deriving Repr, DecidableEq

/-- Follows the spec wording: the dispatch sniffs which of the four
recognized suffixes the URL path ends in.  The checks are written in the
reverse of the order used by the code, so that agreement with the code is a
statement about the mutual exclusivity of the four suffixes rather than a
restatement of the code. -/
def classifyEndpointSpec (path : String) : Option ApiEndpointKind :=
  if goEndsWith path "/api/create" then some .create
  else if goEndsWith path "/api/embed" then some .embed
  else if goEndsWith path "/api/generate" then some .generate
  else if goEndsWith path "/api/chat" then some .chat
  else none

/-- Follows the spec wording for model extraction: dispatch on the path
suffix, parse the corresponding JSON shape, and yield the empty model
string on an unmatched path or a parse failure. -/
def modelFromRequestSpec (J : JsonCodec) (path : String) (body : String) : String :=
  match classifyEndpointSpec path with
  | some .chat =>
    match J.chatReq body with
    | some r => r.model
    | none => ""
  | some .generate =>
    match J.generateReq body with
    | some r => r.model
    | none => ""
  | some .embed =>
    match J.embedReq body with
    | some r => r.model
    | none => ""
  | some .create =>
    match J.createReq body with
    | some r => r.model
    | none => ""
  | none => ""

/-- Follows the spec wording for token extraction: the same path-based
dispatch as model extraction; chat and generate responses yield
(prompt_eval_count, eval_count), embed responses yield
(prompt_eval_count, 0), and an unparsable body or a path for which no
count is derivable (including the create suffix, whose response shape
carries no token fields) yields zero for whichever count is not
derivable. -/
def tokenCountsSpec (J : JsonCodec) (path : String) (body : String) : Int × Int :=
  match classifyEndpointSpec path with
  | some .chat =>
    match J.chatResp body with
    | some r => (r.promptEvalCount, r.evalCount)
    | none => (0, 0)
  | some .generate =>
    match J.generateResp body with
    | some r => (r.promptEvalCount, r.evalCount)
    | none => (0, 0)
  | some .embed =>
    match J.embedResp body with
    | some r => (r.promptEvalCount, 0)
    | none => (0, 0)
  | some .create => (0, 0)
  | none => (0, 0)

/-! ### Mutual exclusivity of the recognized path suffixes -/

/-- Two strings neither of which is a suffix of the other cannot both be
suffixes of the same string. -/
theorem goEndsWith_excl (s a b : String) (h : goEndsWith s a = true)
    (hab : decide (a.data <:+ b.data) = false)
    (hba : decide (b.data <:+ a.data) = false) :
    goEndsWith s b = false := by
  have ha : a.data <:+ s.data := of_decide_eq_true h
  have h1 : ¬ a.data <:+ b.data := of_decide_eq_false hab
  have h2 : ¬ b.data <:+ a.data := of_decide_eq_false hba
  unfold goEndsWith
  apply decide_eq_false
  intro hb
  rcases List.suffix_or_suffix_of_suffix ha hb with h' | h'
  · exact h1 h'
  · exact h2 h'

/-- A path ending in the chat suffix ends in none of the other three. -/
theorem chat_excl (s : String) (h : goEndsWith s "/api/chat" = true) :
    goEndsWith s "/api/generate" = false
    ∧ goEndsWith s "/api/embed" = false
    ∧ goEndsWith s "/api/create" = false :=
  ⟨goEndsWith_excl s "/api/chat" "/api/generate" h (by decide) (by decide),
   goEndsWith_excl s "/api/chat" "/api/embed" h (by decide) (by decide),
   goEndsWith_excl s "/api/chat" "/api/create" h (by decide) (by decide)⟩

/-- A path ending in the generate suffix ends in neither the embed nor the
create suffix. -/
theorem generate_excl (s : String) (h : goEndsWith s "/api/generate" = true) :
    goEndsWith s "/api/embed" = false ∧ goEndsWith s "/api/create" = false :=
  ⟨goEndsWith_excl s "/api/generate" "/api/embed" h (by decide) (by decide),
   goEndsWith_excl s "/api/generate" "/api/create" h (by decide) (by decide)⟩

/-- A path ending in the embed suffix does not end in the create suffix. -/
theorem embed_excl (s : String) (h : goEndsWith s "/api/embed" = true) :
    goEndsWith s "/api/create" = false :=
  goEndsWith_excl s "/api/embed" "/api/create" h (by decide) (by decide)

/-- Claim C4: model extraction dispatches on the path suffix — a path
ending in one of the four recognized suffixes yields the model field of
the corresponding parsed request shape or the empty string on a parse
failure, and any other path yields the empty string; stated as agreement
with the order-independent dispatch the spec describes. -/
theorem getModelFromRequest_eq_spec (J : JsonCodec) (path body : String) :
    getModelFromRequest J path body = modelFromRequestSpec J path body := by
  unfold getModelFromRequest modelFromRequestSpec classifyEndpointSpec
  cases hc : goEndsWith path "/api/chat" with
  | true =>
    obtain ⟨hg, he, hr⟩ := chat_excl path hc
    simp [hc, hg, he, hr]
  | false =>
    cases hg : goEndsWith path "/api/generate" with
    | true =>
      obtain ⟨he, hr⟩ := generate_excl path hg
      simp [hc, hg, he, hr]
    | false =>
      cases he : goEndsWith path "/api/embed" with
      | true =>
        have hr := embed_excl path he
        simp [hc, hg, he, hr]
      | false =>
        cases hr : goEndsWith path "/api/create" with
        | true => simp [hc, hg, he, hr]
        | false => simp [hc, hg, he, hr]

/-- Claim C3: token extraction from the captured backend response uses the
same path-based dispatch as model extraction — chat and generate responses
yield (prompt_eval_count, eval_count), embed responses yield
(prompt_eval_count, 0), and unparsable JSON or an unmatched path (which
includes the create suffix, whose response carries no token fields) yields
zero for whichever count is not derivable; the extractor is a total
function, so no outcome aborts the pipeline. -/
theorem getTokenCountsFromResponse_eq_spec (J : JsonCodec) (path body : String) :
    getTokenCountsFromResponse J path body = tokenCountsSpec J path body := by
  unfold getTokenCountsFromResponse tokenCountsSpec classifyEndpointSpec
  cases hc : goEndsWith path "/api/chat" with
  | true =>
    obtain ⟨hg, he, hr⟩ := chat_excl path hc
    simp [hc, hg, he, hr]
  | false =>
    cases hg : goEndsWith path "/api/generate" with
    | true =>
      obtain ⟨he, hr⟩ := generate_excl path hg
      simp [hc, hg, he, hr]
    | false =>
      cases he : goEndsWith path "/api/embed" with
      | true =>
        have hr := embed_excl path he
        simp [hc, hg, he, hr]
      | false =>
        cases hr : goEndsWith path "/api/create" with
        | true => simp [hc, hg, he, hr]
        | false => simp [hc, hg, he, hr]

/-! ### Reverse proxy core (main.go getReverseProxy, singleJoiningSlash) -/

/-- singleJoiningSlash from main.go: join two path segments with exactly
one separating slash.  The Go switch has two explicit cases (both sides
slashed, neither side slashed) and a fall-through for the mixed cases. -/
def singleJoiningSlash (a b : String) : String :=
  let aslash := goEndsWith a "/"
  let bslash := goStartsWith b "/"
  if aslash && bslash then a ++ dropFirstByte b
  else if !aslash && !bslash then a ++ "/" ++ b
  else a ++ b

/-- A parsed URL as used by the Director: scheme, host, path and raw query
(the fields of net/url.URL the Director reads and writes). -/
structure URL where
  scheme : String
  host : String
  path : String
  rawQuery : String
deriving Repr, DecidableEq

/-- The Director closure installed by getReverseProxy in main.go: rewrite
the inbound request URL onto the backend target, joining paths with
singleJoiningSlash and concatenating the raw queries with an ampersand
only when both are non-empty. -/
def director (targetURL reqURL : URL) : URL :=
  { scheme := targetURL.scheme
    host := targetURL.host
    path := singleJoiningSlash targetURL.path reqURL.path
    rawQuery :=
      if targetURL.rawQuery = "" || reqURL.rawQuery = "" then
        targetURL.rawQuery ++ reqURL.rawQuery
      else
        targetURL.rawQuery ++ "&" ++ reqURL.rawQuery }

/-- Follows the spec wording: remove one trailing slash if present. -/
def stripOneTrailingSlash (a : String) : String :=
  if goEndsWith a "/" then String.mk a.data.dropLast else a

/-- Follows the spec wording: remove one leading slash if present. -/
def stripOneLeadingSlash (b : String) : String :=
  if goStartsWith b "/" then String.mk b.data.tail else b

/-- Follows the spec wording: the joined path is the left side without its
trailing slash, one separating slash, and the right side without its
leading slash — independent of which sides carried a slash. -/
def joinWithSingleSlash (a b : String) : String :=
  stripOneTrailingSlash a ++ "/" ++ stripOneLeadingSlash b

/-- Two strings with the same underlying character list are equal. -/
theorem string_eq_of_data_eq {x y : String} (h : x.data = y.data) : x = y :=
  congrArg String.mk h

/-- singleJoiningSlash agrees with the spec normal form in all four
slash configurations. -/
theorem singleJoiningSlash_eq_joinWithSingleSlash (a b : String) :
    singleJoiningSlash a b = joinWithSingleSlash a b := by
  unfold singleJoiningSlash joinWithSingleSlash stripOneTrailingSlash
    stripOneLeadingSlash dropFirstByte
  cases ha : goEndsWith a "/" with
  | true =>
    obtain ⟨t, ht⟩ : "/".data <:+ a.data := of_decide_eq_true ha
    have ht2 : a.data = t ++ ['/'] := ht.symm
    cases hb : goStartsWith b "/" with
    | true =>
      obtain ⟨u, hu⟩ : "/".data <+: b.data := of_decide_eq_true hb
      have hu2 : b.data = '/' :: u := hu.symm
      apply string_eq_of_data_eq
      simp [ha, hb, ht2, hu2, List.dropLast_concat]
    | false =>
      apply string_eq_of_data_eq
      simp [ha, hb, ht2, List.dropLast_concat]
  | false =>
    cases hb : goStartsWith b "/" with
    | true =>
      obtain ⟨u, hu⟩ : "/".data <+: b.data := of_decide_eq_true hb
      have hu2 : b.data = '/' :: u := hu.symm
      apply string_eq_of_data_eq
      simp [ha, hb, hu2]
    | false =>
      simp [ha, hb]

/-- Claim C5: for every backend base URL and inbound request URL the
Director keeps the target scheme and host, rewrites the path to the join
of the two paths with exactly one separating slash regardless of trailing
or leading slashes, and merges the raw queries with an ampersand exactly
when both are non-empty, otherwise taking whichever is non-empty. -/
theorem director_rewrites_path_and_query (t u : URL) :
    (director t u).scheme = t.scheme
    ∧ (director t u).host = t.host
    ∧ (director t u).path = joinWithSingleSlash t.path u.path
    ∧ (t.rawQuery ≠ "" → u.rawQuery ≠ "" →
        (director t u).rawQuery = t.rawQuery ++ "&" ++ u.rawQuery)
    ∧ (t.rawQuery = "" → (director t u).rawQuery = u.rawQuery)
    ∧ (u.rawQuery = "" → (director t u).rawQuery = t.rawQuery) := by
  refine ⟨rfl, rfl, singleJoiningSlash_eq_joinWithSingleSlash _ _, ?_, ?_, ?_⟩
  · intro h1 h2
    simp [director, h1, h2]
  · intro h
    simp [director, h]
  · intro h
    simp [director, h]

/-! ### Configuration (main.go loadConfig) -/

/-- The process configuration variables loaded by loadConfig in main.go. -/
structure Config where
  ollamaURL : String
  externalValidationURL : String
  externalMetricsURL : String
  apiKeyHeaderName : String
  proxyPort : String
  externalServerAPIKey : String
  externalServerCert : String
  skipTLSVerify : Bool
deriving Repr, DecidableEq

/-! ### Inbound request and outbound-call oracles -/

/-- The inbound HTTP request as the handler observes it.  Headers map a
name to its list of values (Go http.Header); the body field is the result
of io.ReadAll on the request body (error on read failure).  MIME header
canonicalization is abstracted: names are compared as given. -/
structure Request where
  method : String
  headers : List (String × List String)
  remoteAddr : String
  urlPath : String
  body : Except String String

/-- Embeds Go http.Header.Get: the first value stored for the name, or the
empty string when the name is absent or has no values. -/
def headerGet (headers : List (String × List String)) (name : String) : String :=
  match headers.find? (fun kv => kv.fst == name) with
  | some kv => kv.snd.headD ""
  | none => ""

/-- Embeds the header-copy loop in proxyHandler (details.Headers[k] = v[0]):
keep the first value of each header.  Go http.Header never stores an empty
value slice, so headD models v[0]. -/
def headersFirstValue (headers : List (String × List String)) : List (String × String) :=
  headers.map (fun kv => (kv.fst, kv.snd.headD ""))

/-- Oracle for one call to the external validation service, covering every
outcome validateRequest distinguishes: json.Marshal failure,
http.NewRequest failure, client.Do transport failure, or an HTTP reply
with a status code and the result of decoding the reply body as
ValidationResponse (the decode is only consulted when the status is
200). -/
inductive ValidationOutcome where
  | marshalError
  | newRequestError
  | networkError
  | httpReply (statusCode : Nat) (decoded : Option ValidationResponse)
deriving Repr, DecidableEq

/-- validateRequest from main.go: the boolean approval decision.  Every
early-return path yields false; a 200 reply that decodes yields
valid AND NOT rateLimited. -/
def validateRequest (details : RequestDetails) (outcome : ValidationOutcome) : Bool :=
  match details, outcome with
  | _, .marshalError => false
  | _, .newRequestError => false
  | _, .networkError => false
  | _, .httpReply statusCode decoded =>
    if statusCode ≠ 200 then false
    else
      match decoded with
      | none => false
      | some validationResp => validationResp.valid && !validationResp.rateLimited

/-! ### Response-capturing writer (main.go responseWriter) -/

/-- The responseWriter wrapper from main.go.  The Go struct holds the
wrapped http.ResponseWriter and a bytes.Buffer; here the wrapped writer is
represented by what has been forwarded to it (the chunks written and the
status code passed through), and body/statusCode are the capturing
fields. -/
structure responseWriter where
  underlyingWritten : List String
  underlyingStatus : Option Nat
  body : String
  statusCode : Nat
deriving Repr, DecidableEq

/-- responseWriter.Write from main.go: append the chunk to the capture
buffer and forward it to the wrapped writer. -/
def responseWriterWrite (rw : responseWriter) (b : String) : responseWriter :=
  { rw with
    body := rw.body ++ b
    underlyingWritten := rw.underlyingWritten ++ [b] }

/-- responseWriter.WriteHeader from main.go: record the status code and
forward it to the wrapped writer. -/
def responseWriterWriteHeader (rw : responseWriter) (statusCode : Nat) : responseWriter :=
  { rw with
    statusCode := statusCode
    underlyingStatus := some statusCode }

/-- The fresh capture wrapper built in proxyHandler: empty buffer, Go zero
status, nothing forwarded yet. -/
def initialResponseWriter : responseWriter :=
  { underlyingWritten := [], underlyingStatus := none, body := "", statusCode := 0 }

/-- Oracle for one ReverseProxy.ServeHTTP call: the status code and the
sequence of body chunks the proxy writes through the wrapper.  A backend
transport failure is the case where the proxy writes a gateway error
status and no meaningful body — still a WriteHeader followed by Write
calls, so it is covered by this shape. -/
structure BackendBehavior where
  statusCode : Nat
  chunks : List String
deriving Repr, DecidableEq

/-- Run the proxy oracle against a capture wrapper: one WriteHeader, then
the body chunks in order. -/
def serveBackend (b : BackendBehavior) (rw : responseWriter) : responseWriter :=
  b.chunks.foldl responseWriterWrite (responseWriterWriteHeader rw b.statusCode)

/-- Concatenation of the chunks a writer received, i.e. the byte stream
the client sees. -/
def concatChunks : List String → String
  | [] => ""
  | c :: cs => c ++ concatChunks cs

/-! ### Request pipeline (main.go proxyHandler) -/

/-- The response http.Error or the proxied backend reply delivers to the
original client: a status code and a body. -/
structure ClientResponse where
  statusCode : Nat
  body : String
deriving Repr, DecidableEq

/-- Everything one proxyHandler invocation does, as observed from outside:
the client-visible response, whether the validation call was made and with
which RequestDetails value, whether the backend proxy call was made, the
body captured by the wrapper (fed to token extraction), and the
MetricsData dispatched to the metrics reporter (none when the handler
stopped before the dispatch). -/
structure HandlerResult where
  response : ClientResponse
  validationCalled : Bool
  detailsSent : Option RequestDetails
  backendCalled : Bool
  capturedBody : String
  metrics : Option MetricsData
deriving Repr, DecidableEq

/-- Oracle for the outbound effects of one proxyHandler invocation: the
validation service outcome, what the reverse proxy writes back, and the
measured elapsed milliseconds. -/
structure HandlerOracle where
  validation : ValidationOutcome
  backend : BackendBehavior
  durationMs : Int
deriving Repr, DecidableEq

/-- Embeds Go http.Error(w, message, code): plain-text message plus a
trailing newline. -/
def httpError (message : String) (code : Nat) : ClientResponse :=
  { statusCode := code, body := message ++ "\n" }

/-- proxyHandler from main.go.  Steps in source order: extract the API key
from the configured header (empty: 401 and stop); build RequestDetails
from the inbound request (model and inputTokenLength start at their Go
zero values); read the body (failure: 400 and stop); extract the model
from path and body; validate (not approved: 401 and stop); proxy through
the capture wrapper; extract token counts from the captured body; dispatch
MetricsData.  The client sees exactly what was forwarded to the underlying
writer (Go http defaults the status to 200 OK if Write happens with no
WriteHeader). -/
def proxyHandler (cfg : Config) (J : JsonCodec) (o : HandlerOracle)
    (r : Request) : HandlerResult :=
  let apiKey := headerGet r.headers cfg.apiKeyHeaderName
  if apiKey = "" then
    { response := httpError "Unauthorized: Missing API key" 401
      validationCalled := false
      detailsSent := none
      backendCalled := false
      capturedBody := ""
      metrics := none }
  else
    let details0 : RequestDetails :=
      { apiKey := apiKey
        ipAddress := r.remoteAddr
        userAgent := headerGet r.headers "User-Agent"
        headers := headersFirstValue r.headers
        model := ""
        inputTokenLength := 0
        endpoint := r.urlPath }
    match r.body with
    | .error _ =>
      { response := httpError "Error reading request body" 400
        validationCalled := false
        detailsSent := none
        backendCalled := false
        capturedBody := ""
        metrics := none }
    | .ok bodyBytes =>
      let details := { details0 with model := getModelFromRequest J r.urlPath bodyBytes }
      if !validateRequest details o.validation then
        { response := httpError "Unauthorized: Invalid request" 401
          validationCalled := true
          detailsSent := some details
          backendCalled := false
          capturedBody := ""
          metrics := none }
      else
        let rw := serveBackend o.backend initialResponseWriter
        let counts := getTokenCountsFromResponse J r.urlPath rw.body
        { response :=
            { statusCode := rw.underlyingStatus.getD 200
              body := concatChunks rw.underlyingWritten }
          validationCalled := true
          detailsSent := some details
          backendCalled := true
          capturedBody := rw.body
          metrics := some
            { apiKey := apiKey
              model := details.model
              inputTokenLength := counts.fst
              outputTokenLength := counts.snd
              requestDurationMs := o.durationMs
              endpoint := details.endpoint } }

/-! ### Startup health check (main.go validateExternalServices and the
startup portion of main) -/

/-- Oracle for one startup liveness probe: http.NewRequest failure,
transport failure of the GET, or an HTTP reply with a status code. -/
inductive ProbeOutcome where
  | newRequestError
  | transportError
  | httpStatus (code : Nat)
deriving Repr, DecidableEq

/-- validateOllamaService from main.go: GET ollamaURL/api/tags via
client.Get, whose error (request creation or transport) surfaces as the
connect failure; a non-200 status is an error too. -/
def validateOllamaService (p : ProbeOutcome) : Except String Unit :=
  match p with
  | .newRequestError => .error "failed to connect to Ollama service"
  | .transportError => .error "failed to connect to Ollama service"
  | .httpStatus code =>
    if code ≠ 200 then .error ("Ollama service returned non-OK status: " ++ toString code)
    else .ok ()

/-- validateExternalValidationService from main.go. -/
def validateExternalValidationService (p : ProbeOutcome) : Except String Unit :=
  match p with
  | .newRequestError => .error "failed to create validation request"
  | .transportError => .error "failed to connect to validation service"
  | .httpStatus code =>
    if code ≠ 200 then .error ("validation service returned non-OK status: " ++ toString code)
    else .ok ()

/-- validateExternalMetricsService from main.go. -/
def validateExternalMetricsService (p : ProbeOutcome) : Except String Unit :=
  match p with
  | .newRequestError => .error "failed to create metrics request"
  | .transportError => .error "failed to connect to metrics service"
  | .httpStatus code =>
    if code ≠ 200 then .error ("metrics service returned non-OK status: " ++ toString code)
    else .ok ()

/-- validateExternalServices from main.go: the three probes in order, each
failure wrapped with the component name; the oracle for each probe is the
outcome that probe would observe were it run. -/
def validateExternalServices (p1 p2 p3 : ProbeOutcome) : Except String Unit :=
  match validateOllamaService p1 with
  | .error e => .error ("Ollama service validation failed: " ++ e)
  | .ok _ =>
    match validateExternalValidationService p2 with
    | .error e => .error ("External validation service validation failed: " ++ e)
    | .ok _ =>
      match validateExternalMetricsService p3 with
      | .error e => .error ("External metrics service validation failed: " ++ e)
      | .ok _ => .ok ()

/-- How far main gets at startup: os.Exit(1) after the failed health
check, or reaching http.ListenAndServe on the configured port. -/
inductive StartupResult where
  | exited (message : String)
  | listening (port : String)
deriving Repr, DecidableEq

/-- The startup portion of main from main.go after loadConfig: run the
health check, exit on error, otherwise bind the listener. -/
def mainStartup (cfg : Config) (p1 p2 p3 : ProbeOutcome) : StartupResult :=
  match validateExternalServices p1 p2 p3 with
  | .error e => .exited e
  | .ok _ => .listening cfg.proxyPort

/-! ### Supporting lemmas -/

/-- The single approving validation outcome: an HTTP 200 reply whose body
decodes to valid and not rate-limited. -/
def approvedOutcome : ValidationOutcome :=
  .httpReply 200 (some { valid := true, rateLimited := false })

/-- validateRequest approves exactly the approving outcome, for any
request details. -/
theorem validateRequest_eq_true_iff (d : RequestDetails) (v : ValidationOutcome) :
    validateRequest d v = true ↔ v = approvedOutcome := by
  cases v with
  | marshalError => simp [validateRequest, approvedOutcome]
  | newRequestError => simp [validateRequest, approvedOutcome]
  | networkError => simp [validateRequest, approvedOutcome]
  | httpReply statusCode decoded =>
    by_cases hs : statusCode = 200
    · subst hs
      cases decoded with
      | none => simp [validateRequest, approvedOutcome]
      | some vr =>
        cases vr with
        | mk valid rateLimited =>
          cases valid <;> cases rateLimited <;> simp [validateRequest, approvedOutcome]
    · simp [validateRequest, approvedOutcome, hs]

/-- When the validation oracle is the approving outcome, validateRequest
returns true on any details value. -/
theorem validateRequest_true_of_approved (v : ValidationOutcome)
    (h : v = approvedOutcome) : ∀ d, validateRequest d v = true :=
  fun d => (validateRequest_eq_true_iff d v).mpr h

/-- When the validation oracle is any other outcome, validateRequest
returns false on any details value. -/
theorem validateRequest_false_of_not_approved (v : ValidationOutcome)
    (h : v ≠ approvedOutcome) : ∀ d, validateRequest d v = false := by
  intro d
  cases hb : validateRequest d v
  · rfl
  · exact absurd ((validateRequest_eq_true_iff d v).mp hb) h

/-- Folding Write over a chunk list forwards every chunk, appends the
concatenation to the capture buffer, and touches neither status field. -/
theorem foldl_responseWriterWrite (chunks : List String) (rw : responseWriter) :
    (chunks.foldl responseWriterWrite rw).underlyingWritten = rw.underlyingWritten ++ chunks
    ∧ (chunks.foldl responseWriterWrite rw).body = rw.body ++ concatChunks chunks
    ∧ (chunks.foldl responseWriterWrite rw).underlyingStatus = rw.underlyingStatus
    ∧ (chunks.foldl responseWriterWrite rw).statusCode = rw.statusCode := by
  induction chunks generalizing rw with
  | nil => simp [concatChunks]
  | cons c cs ih =>
    have h := ih (responseWriterWrite rw c)
    simp only [List.foldl_cons, concatChunks, h.1, h.2.1, h.2.2.1, h.2.2.2]
    simp [responseWriterWrite, List.append_assoc, String.append_assoc]

/-- Net effect of one proxied backend reply on a fresh capture wrapper. -/
theorem serveBackend_effects (b : BackendBehavior) :
    (serveBackend b initialResponseWriter).underlyingWritten = b.chunks
    ∧ (serveBackend b initialResponseWriter).body = concatChunks b.chunks
    ∧ (serveBackend b initialResponseWriter).underlyingStatus = some b.statusCode
    ∧ (serveBackend b initialResponseWriter).statusCode = b.statusCode := by
  have h := foldl_responseWriterWrite b.chunks
    (responseWriterWriteHeader initialResponseWriter b.statusCode)
  unfold serveBackend
  simp only [h.1, h.2.1, h.2.2.1, h.2.2.2]
  simp [responseWriterWriteHeader, initialResponseWriter]

/-- When none of the three response shapes parses, token extraction yields
zero for both counts, whatever the path. -/
theorem tokenCounts_zero_of_unparsable (J : JsonCodec) (path body : String)
    (h1 : J.chatResp body = none) (h2 : J.generateResp body = none)
    (h3 : J.embedResp body = none) :
    getTokenCountsFromResponse J path body = (0, 0) := by
  unfold getTokenCountsFromResponse
  split_ifs <;> simp [h1, h2, h3]

/-- A string with a non-empty left part is non-empty. -/
theorem string_append_ne_empty (a b : String) (ha : a ≠ "") : a ++ b ≠ "" := by
  intro h
  have hd : a.data ++ b.data = [] := by
    have := congrArg String.data h
    simpa using this
  exact ha (string_eq_of_data_eq (List.append_eq_nil.mp hd).1)

/-- The Ollama probe succeeds exactly on an HTTP 200 reply. -/
theorem validateOllamaService_ok_iff (p : ProbeOutcome) :
    validateOllamaService p = .ok () ↔ p = .httpStatus 200 := by
  cases p with
  | newRequestError => simp [validateOllamaService]
  | transportError => simp [validateOllamaService]
  | httpStatus code =>
    by_cases h : code = 200
    · subst h
      simp [validateOllamaService]
    · simp [validateOllamaService, h]

/-- The validation-URL probe succeeds exactly on an HTTP 200 reply. -/
theorem validateExternalValidationService_ok_iff (p : ProbeOutcome) :
    validateExternalValidationService p = .ok () ↔ p = .httpStatus 200 := by
  cases p with
  | newRequestError => simp [validateExternalValidationService]
  | transportError => simp [validateExternalValidationService]
  | httpStatus code =>
    by_cases h : code = 200
    · subst h
      simp [validateExternalValidationService]
    · simp [validateExternalValidationService, h]

/-- The metrics-URL probe succeeds exactly on an HTTP 200 reply. -/
theorem validateExternalMetricsService_ok_iff (p : ProbeOutcome) :
    validateExternalMetricsService p = .ok () ↔ p = .httpStatus 200 := by
  cases p with
  | newRequestError => simp [validateExternalMetricsService]
  | transportError => simp [validateExternalMetricsService]
  | httpStatus code =>
    by_cases h : code = 200
    · subst h
      simp [validateExternalMetricsService]
    · simp [validateExternalMetricsService, h]

/-- The combined health check succeeds exactly when all three probes see
an HTTP 200 reply. -/
theorem validateExternalServices_ok_iff (p1 p2 p3 : ProbeOutcome) :
    validateExternalServices p1 p2 p3 = .ok () ↔
      (p1 = .httpStatus 200 ∧ p2 = .httpStatus 200 ∧ p3 = .httpStatus 200) := by
  constructor
  · intro h
    cases h1 : validateOllamaService p1 with
    | error e => simp [validateExternalServices, h1] at h
    | ok u =>
      cases h2 : validateExternalValidationService p2 with
      | error e => simp [validateExternalServices, h1, h2] at h
      | ok u2 =>
        cases h3 : validateExternalMetricsService p3 with
        | error e => simp [validateExternalServices, h1, h2, h3] at h
        | ok u3 =>
          cases u
          cases u2
          cases u3
          exact ⟨(validateOllamaService_ok_iff p1).mp h1,
            (validateExternalValidationService_ok_iff p2).mp h2,
            (validateExternalMetricsService_ok_iff p3).mp h3⟩
  · rintro ⟨h1, h2, h3⟩
    subst h1
    subst h2
    subst h3
    rfl

/-- Every error the combined health check can report carries a non-empty
message. -/
theorem validateExternalServices_error_ne_empty (p1 p2 p3 : ProbeOutcome)
    (e : String) (h : validateExternalServices p1 p2 p3 = .error e) : e ≠ "" := by
  unfold validateExternalServices at h
  cases h1 : validateOllamaService p1 with
  | error e1 =>
    rw [h1] at h
    injection h with he
    subst he
    exact string_append_ne_empty _ _ (by decide)
  | ok u =>
    rw [h1] at h
    cases h2 : validateExternalValidationService p2 with
    | error e2 =>
      rw [h2] at h
      injection h with he
      subst he
      exact string_append_ne_empty _ _ (by decide)
    | ok u2 =>
      rw [h2] at h
      cases h3 : validateExternalMetricsService p3 with
      | error e3 =>
        rw [h3] at h
        injection h with he
        subst he
        exact string_append_ne_empty _ _ (by decide)
      | ok u3 =>
        rw [h3] at h
        cases h

/-! ### Claim theorems -/

/-- Claim C1: for every inbound request with a non-empty API key and a
readable body, the backend proxy call happens if and only if the
validation call succeeds with HTTP status exactly 200 and a body decoding
to ValidationResponse with valid and not rateLimited; every other
validation outcome (marshal, request-creation or network error, non-200
status, decode failure, invalid, or rate-limited) makes the handler
respond 401 Unauthorized and stop, with no backend call and no metrics
dispatch. -/
theorem backend_call_iff_validation_approved (cfg : Config) (J : JsonCodec)
    (o : HandlerOracle) (r : Request) (bodyBytes : String)
    (hkey : headerGet r.headers cfg.apiKeyHeaderName ≠ "")
    (hbody : r.body = .ok bodyBytes) :
    ((proxyHandler cfg J o r).backendCalled = true ↔ o.validation = approvedOutcome)
    ∧ (o.validation ≠ approvedOutcome →
        (proxyHandler cfg J o r).response = httpError "Unauthorized: Invalid request" 401
        ∧ (proxyHandler cfg J o r).backendCalled = false
        ∧ (proxyHandler cfg J o r).metrics = none) := by
  by_cases happ : o.validation = approvedOutcome
  · have hv : ∀ d, validateRequest d approvedOutcome = true :=
      validateRequest_true_of_approved approvedOutcome rfl
    constructor
    · simp [proxyHandler, hbody, hkey, hv, happ]
    · intro hn
      exact absurd happ hn
  · have hv := validateRequest_false_of_not_approved o.validation happ
    constructor
    · simp [proxyHandler, hbody, hkey, hv, happ]
    · intro _
      refine ⟨?_, ?_, ?_⟩ <;> simp [proxyHandler, hbody, hkey, hv]

/-- Claim C1 witness at a concrete request and oracle. -/
theorem backend_call_iff_validation_approved_witness :
    ((proxyHandler
        { ollamaURL := "http://localhost:11434"
          externalValidationURL := "http://v.example/validate"
          externalMetricsURL := "http://v.example/log_metrics"
          apiKeyHeaderName := "X-API-Key"
          proxyPort := "8080"
          externalServerAPIKey := ""
          externalServerCert := ""
          skipTLSVerify := false }
        { chatReq := fun _ => none
          generateReq := fun _ => none
          embedReq := fun _ => none
          createReq := fun _ => none
          chatResp := fun _ => none
          generateResp := fun _ => none
          embedResp := fun _ => none }
        { validation := approvedOutcome
          backend := { statusCode := 200, chunks := ["ok-body"] }
          durationMs := 5 }
        { method := "POST"
          headers := [("X-API-Key", ["key-1"])]
          remoteAddr := "10.0.0.1:4242"
          urlPath := "/api/chat"
          body := .ok "req-body" }).backendCalled = true ↔
      (approvedOutcome = approvedOutcome)) :=
  (backend_call_iff_validation_approved _ _ _ _ "req-body" (by decide) rfl).1

/-- A concrete configuration for witnesses (the loadConfig defaults). -/
def demoConfig : Config :=
  { ollamaURL := "http://localhost:11434"
    externalValidationURL := "http://external-server.com/validate"
    externalMetricsURL := "http://external-server.com/log_metrics"
    apiKeyHeaderName := "X-API-Key"
    proxyPort := "8080"
    externalServerAPIKey := ""
    externalServerCert := ""
    skipTLSVerify := false }

/-- A concrete codec for witnesses: parses one fixed chat request body and
one fixed chat response body, fails on everything else. -/
def demoCodec : JsonCodec :=
  { chatReq := fun body =>
      if body = "demo-chat-request" then
        some { model := "llama2", messages := [], stream := false }
      else none
    generateReq := fun _ => none
    embedReq := fun _ => none
    createReq := fun _ => none
    chatResp := fun body =>
      if body = "demo-chat-response" then
        some { model := "llama2", createdAt := "",
               message := { role := "assistant", content := "hi", images := [] }
               done := true, doneReason := "", totalDuration := 0,
               loadDuration := 0, promptEvalCount := 10, evalCount := 20,
               evalDuration := 0 }
      else none
    generateResp := fun _ => none
    embedResp := fun _ => none }

/-- A concrete inbound request for witnesses. -/
def demoRequest : Request :=
  { method := "POST"
    headers := [("X-API-Key", ["key-1"]), ("User-Agent", ["demo-agent"])]
    remoteAddr := "10.0.0.1:4242"
    urlPath := "/api/chat"
    body := .ok "demo-chat-request" }

/-- A concrete oracle for witnesses: approving validation, a backend reply
whose single chunk the demo codec parses as a chat response. -/
def demoOracle : HandlerOracle :=
  { validation := approvedOutcome
    backend := { statusCode := 200, chunks := ["demo-chat-response"] }
    durationMs := 5 }

/-- Claim C2: for every inbound request whose configured API-key header is
absent or empty, the handler responds 401 Unauthorized and stops: no
validation call, no backend proxy call, and no metrics dispatch occur. -/
theorem missing_api_key_short_circuits (cfg : Config) (J : JsonCodec)
    (o : HandlerOracle) (r : Request)
    (hkey : headerGet r.headers cfg.apiKeyHeaderName = "") :
    (proxyHandler cfg J o r).response = httpError "Unauthorized: Missing API key" 401
    ∧ (proxyHandler cfg J o r).validationCalled = false
    ∧ (proxyHandler cfg J o r).detailsSent = none
    ∧ (proxyHandler cfg J o r).backendCalled = false
    ∧ (proxyHandler cfg J o r).metrics = none := by
  refine ⟨?_, ?_, ?_, ?_, ?_⟩ <;> simp [proxyHandler, hkey]

/-- Claim C2 witness: a request without the API-key header. -/
theorem missing_api_key_short_circuits_witness :
    (proxyHandler demoConfig demoCodec demoOracle
        { method := "POST"
          headers := [("User-Agent", ["demo-agent"])]
          remoteAddr := "10.0.0.1:4242"
          urlPath := "/api/chat"
          body := .ok "demo-chat-request" }).response =
      httpError "Unauthorized: Missing API key" 401
    ∧ (proxyHandler demoConfig demoCodec demoOracle
        { method := "POST"
          headers := [("User-Agent", ["demo-agent"])]
          remoteAddr := "10.0.0.1:4242"
          urlPath := "/api/chat"
          body := .ok "demo-chat-request" }).validationCalled = false
    ∧ (proxyHandler demoConfig demoCodec demoOracle
        { method := "POST"
          headers := [("User-Agent", ["demo-agent"])]
          remoteAddr := "10.0.0.1:4242"
          urlPath := "/api/chat"
          body := .ok "demo-chat-request" }).detailsSent = none
    ∧ (proxyHandler demoConfig demoCodec demoOracle
        { method := "POST"
          headers := [("User-Agent", ["demo-agent"])]
          remoteAddr := "10.0.0.1:4242"
          urlPath := "/api/chat"
          body := .ok "demo-chat-request" }).backendCalled = false
    ∧ (proxyHandler demoConfig demoCodec demoOracle
        { method := "POST"
          headers := [("User-Agent", ["demo-agent"])]
          remoteAddr := "10.0.0.1:4242"
          urlPath := "/api/chat"
          body := .ok "demo-chat-request" }).metrics = none :=
  missing_api_key_short_circuits demoConfig demoCodec demoOracle _ (by decide)

/-- Claim C5 witness: a base path with a trailing slash joined to a
request path with a leading slash, and two non-empty queries. -/
theorem director_rewrites_path_and_query_witness :
    (director { scheme := "http", host := "h", path := "/x/", rawQuery := "a=1" }
        { scheme := "", host := "", path := "/y", rawQuery := "b=2" }).path =
      joinWithSingleSlash "/x/" "/y"
    ∧ (director { scheme := "http", host := "h", path := "/x/", rawQuery := "a=1" }
        { scheme := "", host := "", path := "/y", rawQuery := "b=2" }).rawQuery =
      "a=1" ++ "&" ++ "b=2" := by
  have h := director_rewrites_path_and_query
    { scheme := "http", host := "h", path := "/x/", rawQuery := "a=1" }
    { scheme := "", host := "", path := "/y", rawQuery := "b=2" }
  exact ⟨h.2.2.1, h.2.2.2.1 (by decide) (by decide)⟩

/-- Claim C6: for every approved request, each chunk written through the
capture wrapper is both appended to the capture buffer and forwarded
verbatim to the underlying writer, the status code set on the wrapper is
forwarded verbatim, and consequently the client receives exactly the
backend's status code and the concatenation of the backend's body chunks,
which is also what the capture buffer holds. -/
theorem backend_reply_passthrough (cfg : Config) (J : JsonCodec)
    (o : HandlerOracle) (r : Request) (bodyBytes : String)
    (hkey : headerGet r.headers cfg.apiKeyHeaderName ≠ "")
    (hbody : r.body = .ok bodyBytes)
    (happ : o.validation = approvedOutcome) :
    (∀ rw chunk,
        (responseWriterWrite rw chunk).body = rw.body ++ chunk
        ∧ (responseWriterWrite rw chunk).underlyingWritten = rw.underlyingWritten ++ [chunk])
    ∧ (∀ rw statusCode,
        (responseWriterWriteHeader rw statusCode).statusCode = statusCode
        ∧ (responseWriterWriteHeader rw statusCode).underlyingStatus = some statusCode)
    ∧ (proxyHandler cfg J o r).response.statusCode = o.backend.statusCode
    ∧ (proxyHandler cfg J o r).response.body = concatChunks o.backend.chunks
    ∧ (proxyHandler cfg J o r).capturedBody = concatChunks o.backend.chunks := by
  have hv : ∀ d, validateRequest d approvedOutcome = true :=
    validateRequest_true_of_approved approvedOutcome rfl
  have hse := serveBackend_effects o.backend
  refine ⟨fun rw chunk => ⟨rfl, rfl⟩, fun rw statusCode => ⟨rfl, rfl⟩, ?_, ?_, ?_⟩ <;>
    simp [proxyHandler, hbody, hkey, happ, hv, hse.1, hse.2.1, hse.2.2.1, hse.2.2.2]

/-- Claim C6 witness at the demo request and oracle. -/
theorem backend_reply_passthrough_witness :
    (proxyHandler demoConfig demoCodec demoOracle demoRequest).response.statusCode = 200
    ∧ (proxyHandler demoConfig demoCodec demoOracle demoRequest).response.body =
        concatChunks ["demo-chat-response"]
    ∧ (proxyHandler demoConfig demoCodec demoOracle demoRequest).capturedBody =
        concatChunks ["demo-chat-response"] := by
  have h := backend_reply_passthrough demoConfig demoCodec demoOracle demoRequest
    "demo-chat-request" (by decide) rfl rfl
  exact ⟨h.2.2.1, h.2.2.2.1, h.2.2.2.2⟩

/-- Claim C7: whenever a metrics value is dispatched, its apiKey, model
and endpoint equal those of the RequestDetails value sent to validation
for the same inbound request, and these three fields do not depend on
what the proxied backend wrote back or on the measured duration — they
are copied from the request side, never re-derived from the response. -/
theorem metrics_fields_copied_from_request (cfg : Config) (J : JsonCodec)
    (v : ValidationOutcome) (b1 b2 : BackendBehavior) (t1 t2 : Int) (r : Request) :
    (∀ d m,
        (proxyHandler cfg J { validation := v, backend := b1, durationMs := t1 } r).detailsSent
            = some d →
        (proxyHandler cfg J { validation := v, backend := b1, durationMs := t1 } r).metrics
            = some m →
        m.apiKey = d.apiKey ∧ m.model = d.model ∧ m.endpoint = d.endpoint)
    ∧ ((proxyHandler cfg J { validation := v, backend := b1, durationMs := t1 } r).metrics.map
          (fun m => (m.apiKey, m.model, m.endpoint))
        = (proxyHandler cfg J { validation := v, backend := b2, durationMs := t2 } r).metrics.map
          (fun m => (m.apiKey, m.model, m.endpoint))) := by
  by_cases hk : headerGet r.headers cfg.apiKeyHeaderName = ""
  · constructor
    · intro d m hd hm
      simp [proxyHandler, hk] at hd
    · simp [proxyHandler, hk]
  · cases hb : r.body with
    | error e =>
      constructor
      · intro d m hd hm
        simp [proxyHandler, hk, hb] at hd
      · simp [proxyHandler, hk, hb]
    | ok bodyBytes =>
      by_cases happ : v = approvedOutcome
      · have hv : ∀ d, validateRequest d approvedOutcome = true :=
          validateRequest_true_of_approved approvedOutcome rfl
        constructor
        · intro d m hd hm
          simp [proxyHandler, hk, hb, happ, hv] at hd hm
          subst hd
          subst hm
          exact ⟨rfl, rfl, rfl⟩
        · simp [proxyHandler, hk, hb, happ, hv]
      · have hv := validateRequest_false_of_not_approved v happ
        constructor
        · intro d m hd hm
          simp [proxyHandler, hk, hb, hv] at hm
        · simp [proxyHandler, hk, hb, hv]

/-- The RequestDetails value the demo request produces. -/
def demoDetails : RequestDetails :=
  { apiKey := "key-1"
    ipAddress := "10.0.0.1:4242"
    userAgent := "demo-agent"
    headers := [("X-API-Key", "key-1"), ("User-Agent", "demo-agent")]
    model := "llama2"
    inputTokenLength := 0
    endpoint := "/api/chat" }

/-- The MetricsData value the demo request and oracle produce. -/
def demoMetrics : MetricsData :=
  { apiKey := "key-1"
    model := "llama2"
    inputTokenLength := 10
    outputTokenLength := 20
    requestDurationMs := 5
    endpoint := "/api/chat" }

/-- Claim C7 witness at the demo request, with two different backend
behaviors. -/
theorem metrics_fields_copied_from_request_witness :
    demoMetrics.apiKey = demoDetails.apiKey
    ∧ demoMetrics.model = demoDetails.model
    ∧ demoMetrics.endpoint = demoDetails.endpoint :=
  (metrics_fields_copied_from_request demoConfig demoCodec approvedOutcome
      { statusCode := 200, chunks := ["demo-chat-response"] }
      { statusCode := 502, chunks := [] } 5 9 demoRequest).1
    demoDetails demoMetrics (by decide) (by decide)

/-- Claim C9: whenever a RequestDetails value is sent to the validation
service, its inputTokenLength field is 0 — the pipeline never assigns the
field, so the serialized validation payload always carries the Go zero
value. -/
theorem validation_payload_inputTokenLength_zero (cfg : Config) (J : JsonCodec)
    (o : HandlerOracle) (r : Request) (d : RequestDetails)
    (h : (proxyHandler cfg J o r).detailsSent = some d) :
    d.inputTokenLength = 0 := by
  by_cases hk : headerGet r.headers cfg.apiKeyHeaderName = ""
  · simp [proxyHandler, hk] at h
  · cases hb : r.body with
    | error e => simp [proxyHandler, hk, hb] at h
    | ok bodyBytes =>
      by_cases happ : o.validation = approvedOutcome
      · have hv : ∀ dd, validateRequest dd approvedOutcome = true :=
          validateRequest_true_of_approved approvedOutcome rfl
        simp [proxyHandler, hk, hb, happ, hv] at h
        subst h
        rfl
      · have hv := validateRequest_false_of_not_approved o.validation happ
        simp [proxyHandler, hk, hb, hv] at h
        subst h
        rfl

/-- Claim C9 witness at the demo request. -/
theorem validation_payload_inputTokenLength_zero_witness :
    demoDetails.inputTokenLength = 0 :=
  validation_payload_inputTokenLength_zero demoConfig demoCodec demoOracle
    demoRequest demoDetails (by decide)

/-- Claim C10: for every request that passes validation — whatever the
backend proxy wrote back, including an error status or an empty or
non-JSON body — exactly one metrics value is dispatched, carrying the
token counts extracted from the captured response body, and those counts
are both zero whenever none of the response shapes parses. -/
theorem single_metrics_dispatch_after_approval (cfg : Config) (J : JsonCodec)
    (o : HandlerOracle) (r : Request) (bodyBytes : String)
    (hkey : headerGet r.headers cfg.apiKeyHeaderName ≠ "")
    (hbody : r.body = .ok bodyBytes)
    (happ : o.validation = approvedOutcome) :
    ∃ m, (proxyHandler cfg J o r).metrics = some m
      ∧ m.inputTokenLength =
          (getTokenCountsFromResponse J r.urlPath (proxyHandler cfg J o r).capturedBody).fst
      ∧ m.outputTokenLength =
          (getTokenCountsFromResponse J r.urlPath (proxyHandler cfg J o r).capturedBody).snd
      ∧ m.requestDurationMs = o.durationMs
      ∧ (J.chatResp (proxyHandler cfg J o r).capturedBody = none →
          J.generateResp (proxyHandler cfg J o r).capturedBody = none →
          J.embedResp (proxyHandler cfg J o r).capturedBody = none →
          m.inputTokenLength = 0 ∧ m.outputTokenLength = 0) := by
  have hv : ∀ d, validateRequest d approvedOutcome = true :=
    validateRequest_true_of_approved approvedOutcome rfl
  have hcap : (proxyHandler cfg J o r).capturedBody =
      (serveBackend o.backend initialResponseWriter).body := by
    simp [proxyHandler, hbody, hkey, happ, hv]
  have hmet : (proxyHandler cfg J o r).metrics = some
      { apiKey := headerGet r.headers cfg.apiKeyHeaderName
        model := getModelFromRequest J r.urlPath bodyBytes
        inputTokenLength :=
          (getTokenCountsFromResponse J r.urlPath
            (serveBackend o.backend initialResponseWriter).body).fst
        outputTokenLength :=
          (getTokenCountsFromResponse J r.urlPath
            (serveBackend o.backend initialResponseWriter).body).snd
        requestDurationMs := o.durationMs
        endpoint := r.urlPath } := by
    simp [proxyHandler, hbody, hkey, happ, hv]
  refine ⟨_, hmet, ?_, ?_, rfl, ?_⟩
  · rw [hcap]
  · rw [hcap]
  · intro h1 h2 h3
    rw [hcap] at h1 h2 h3
    have hz := tokenCounts_zero_of_unparsable J r.urlPath _ h1 h2 h3
    constructor
    · show (getTokenCountsFromResponse J r.urlPath
        (serveBackend o.backend initialResponseWriter).body).fst = 0
      rw [hz]
    · show (getTokenCountsFromResponse J r.urlPath
        (serveBackend o.backend initialResponseWriter).body).snd = 0
      rw [hz]

/-- Claim C10 witness: the demo request with a backend whose reply the
demo codec cannot parse (a 502 with a non-JSON body), checking a metrics
value is still dispatched. -/
theorem single_metrics_dispatch_after_approval_witness :
    ∃ m, (proxyHandler demoConfig demoCodec
        { validation := approvedOutcome
          backend := { statusCode := 502, chunks := ["bad gateway"] }
          durationMs := 5 } demoRequest).metrics = some m
      ∧ m.inputTokenLength =
          (getTokenCountsFromResponse demoCodec demoRequest.urlPath
            (proxyHandler demoConfig demoCodec
              { validation := approvedOutcome
                backend := { statusCode := 502, chunks := ["bad gateway"] }
                durationMs := 5 } demoRequest).capturedBody).fst
      ∧ m.outputTokenLength =
          (getTokenCountsFromResponse demoCodec demoRequest.urlPath
            (proxyHandler demoConfig demoCodec
              { validation := approvedOutcome
                backend := { statusCode := 502, chunks := ["bad gateway"] }
                durationMs := 5 } demoRequest).capturedBody).snd
      ∧ m.requestDurationMs = 5
      ∧ (demoCodec.chatResp (proxyHandler demoConfig demoCodec
            { validation := approvedOutcome
              backend := { statusCode := 502, chunks := ["bad gateway"] }
              durationMs := 5 } demoRequest).capturedBody = none →
          demoCodec.generateResp (proxyHandler demoConfig demoCodec
            { validation := approvedOutcome
              backend := { statusCode := 502, chunks := ["bad gateway"] }
              durationMs := 5 } demoRequest).capturedBody = none →
          demoCodec.embedResp (proxyHandler demoConfig demoCodec
            { validation := approvedOutcome
              backend := { statusCode := 502, chunks := ["bad gateway"] }
              durationMs := 5 } demoRequest).capturedBody = none →
          m.inputTokenLength = 0 ∧ m.outputTokenLength = 0) :=
  single_metrics_dispatch_after_approval demoConfig demoCodec
    { validation := approvedOutcome
      backend := { statusCode := 502, chunks := ["bad gateway"] }
      durationMs := 5 } demoRequest "demo-chat-request" (by decide) rfl rfl

/-- Claim C8: the startup health check lets main reach the listener bind
if and only if all three dependency probes succeed with HTTP 200; any
transport failure or non-200 status makes startup abort with a non-empty
error message before the listener binds. -/
theorem startup_health_check_fail_fast (cfg : Config) (p1 p2 p3 : ProbeOutcome) :
    (mainStartup cfg p1 p2 p3 = .listening cfg.proxyPort ↔
        (p1 = .httpStatus 200 ∧ p2 = .httpStatus 200 ∧ p3 = .httpStatus 200))
    ∧ (¬(p1 = .httpStatus 200 ∧ p2 = .httpStatus 200 ∧ p3 = .httpStatus 200) →
        ∃ msg, mainStartup cfg p1 p2 p3 = .exited msg ∧ msg ≠ "") := by
  constructor
  · constructor
    · intro h
      cases he : validateExternalServices p1 p2 p3 with
      | error e => simp [mainStartup, he] at h
      | ok u =>
        cases u
        exact (validateExternalServices_ok_iff p1 p2 p3).mp he
    · intro htriple
      have hok := (validateExternalServices_ok_iff p1 p2 p3).mpr htriple
      simp [mainStartup, hok]
  · intro hn
    cases he : validateExternalServices p1 p2 p3 with
    | ok u =>
      cases u
      exact absurd ((validateExternalServices_ok_iff p1 p2 p3).mp he) hn
    | error e =>
      exact ⟨e, by simp [mainStartup, he],
        validateExternalServices_error_ne_empty p1 p2 p3 e he⟩

/-- Claim C8 witness: all probes healthy reaches the listener; a backend
transport failure exits with a non-empty message. -/
theorem startup_health_check_fail_fast_witness :
    mainStartup demoConfig (.httpStatus 200) (.httpStatus 200) (.httpStatus 200) =
      .listening demoConfig.proxyPort
    ∧ ∃ msg, mainStartup demoConfig .transportError (.httpStatus 200) (.httpStatus 200) =
        .exited msg ∧ msg ≠ "" := by
  constructor
  · exact (startup_health_check_fail_fast demoConfig _ _ _).1.mpr ⟨rfl, rfl, rfl⟩
  · exact (startup_health_check_fail_fast demoConfig _ _ _).2
      (by intro h; exact absurd h.1 (by decide))
